import Mathlib

/-!
# Verification of the lazypr diff-analysis core

This file gives a shallow embedding, in Lean 4, of the pure algorithmic core of
the lazypr repository (TypeScript), and proves properties of it:

* `DiffSanitizer` (packages/core/src/diff-sanitizer.ts): path-pattern filtering
  of parsed diff files.
* `TokenManager` (packages/core/src/token-manager.ts): token estimation and
  greedy truncation under a token budget.
* `ImpactScorer` (ai-engine impact-scorer): per-file risk classification and
  aggregate risk / impact score.
* `GhostCommitDetector` (core github utilities): keyword/diff consistency check.
* `detectTickets` (packages/core/src/pr-title-enhancer.ts): ticket reference
  extraction and URL generation.

Strings are modelled as `List Char` (`Str`). JavaScript regular expressions are
translated pattern-by-pattern into explicit decidable matchers on `Str`; each
matcher is noted next to the regex it embeds. `toLowerCase`, `trim` and the
regex classes `\s` and `\w` are modelled on their ASCII behaviour, which covers
every character the embedded patterns and inputs use. JavaScript numbers that
are only ever integers in the code are modelled as `Int` (or `Nat` where the
code can only produce non-negative values). Ratio *comparisons* against the
thresholds 0.2 / 0.1 / 0.5 / 0.3 are modelled over exact `ℚ`: for those the
double rounding of the operands cannot flip the comparison at any feasible
count. The impact-score expression `Math.round((s/max)*100)`, by contrast, is
observably sensitive to binary64 rounding (at 8 files it yields 57 where
exact rationals give 58), so its division and multiplication are evaluated
through an explicit IEEE-754 binary64 model (`fl`, round-to-nearest,
ties-to-even, 53-bit significand; all values this code path produces lie in
the normal range, so subnormals and overflow need no treatment).
-/

/-- Strings are modelled as lists of characters. -/
abbrev Str := List Char

/-- Coerce a Lean string literal into the model representation. -/
def str (s : String) : Str := s.data

/-- ASCII model of JavaScript `String.prototype.toLowerCase`. -/
def jsToLower (s : Str) : Str := s.map Char.toLower

/-- Characters matched by the JavaScript whitespace class `\s` (ASCII part). -/
def isJsWs (c : Char) : Bool :=
  c = ' ' || c = '\t' || c = '\n' || c = '\r' || c = '\x0b' || c = '\x0c'

/-- Model of JavaScript `String.prototype.trim` (ASCII whitespace). -/
def jsTrim (s : Str) : Str :=
  ((s.dropWhile isJsWs).reverse.dropWhile isJsWs).reverse

/-- `pat` occurs somewhere in `s` (model of an unanchored literal regex test). -/
def containsStr (pat s : Str) : Bool := s.tails.any (fun t => pat.isPrefixOf t)

/-- `s` ends with `suf` (model of a `$`-anchored literal regex test). -/
def endsWithStr (suf s : Str) : Bool := suf.reverse.isPrefixOf s.reverse

/-- Case-insensitive `containsStr`: the pattern is given lowercase. -/
def ciContains (pat s : Str) : Bool := containsStr pat (jsToLower s)

/-- Case-insensitive `endsWithStr`: the pattern is given lowercase. -/
def ciEndsWith (suf s : Str) : Bool := endsWithStr suf (jsToLower s)

/-- JavaScript `Array.prototype.indexOf`: first index of `r`, `-1` if absent. -/
def jsIndexOf {α : Type} [DecidableEq α] (l : List α) (r : α) : Int :=
  match l.findIdx? (fun x => decide (x = r)) with
  | some i => (i : Int)
  | none => -1

/-- Word characters for the JavaScript regex boundary `\b` (class `\w`). -/
def isWordChar (c : Char) : Bool :=
  (('a' ≤ c && c ≤ 'z') || ('A' ≤ c && c ≤ 'Z') || ('0' ≤ c && c ≤ '9') || c = '_')

/-! ## DiffSanitizer (packages/core/src/diff-sanitizer.ts)

The `ParsedFile` shape produced by `DiffSanitizer.parse`, the default
path-pattern lists, and `sanitize`.
-/

/-- Line kind inside a hunk (`"context" | "add" | "delete"`). -/
inductive LineKind where
  | context
  | add
  | delete
deriving DecidableEq, Repr

/-- One line of a hunk: `{ type, content }`. -/
structure DiffLine where
  kind : LineKind
  content : Str
deriving DecidableEq, Repr

/-- One hunk of a parsed file. -/
structure Hunk where
  oldStart : Int
  oldLines : Int
  newStart : Int
  newLines : Int
  lines : List DiffLine
deriving DecidableEq, Repr

/-- Change kind of a parsed file (`"add" | "delete" | "modify" | "rename"`). -/
inductive FileKind where
  | add
  | delete
  | modify
  | rename
deriving DecidableEq, Repr

/-- `ParsedFile` from diff-sanitizer.ts. -/
structure ParsedFile where
  oldPath : Str
  newPath : Str
  kind : FileKind
  hunks : List Hunk
deriving DecidableEq, Repr

/-- `SanitizeOptions`: four optional booleans (`none` = field absent). -/
structure SanitizeOptions where
  excludeLockfiles : Option Bool := none
  excludeNonCodeAssets : Option Bool := none
  excludeTests : Option Bool := none
  excludeConfigs : Option Bool := none

/-- `DEFAULT_LOCKFILE_PATTERNS` (all case-sensitive, all `$`-anchored except
none; each entry embeds one regex). -/
def DEFAULT_LOCKFILE_PATTERNS : List (Str → Bool) :=
  [ endsWithStr (str "package-lock.json")
  , endsWithStr (str "yarn.lock")
  , endsWithStr (str "pnpm-lock.yaml")
  , endsWithStr (str "bun.lock")
  , endsWithStr (str "Gemfile.lock")
  , endsWithStr (str "poetry.lock")
  , endsWithStr (str "Cargo.lock")
  , endsWithStr (str "go.mod")
  , endsWithStr (str "go.sum")
  , endsWithStr (str ".csproj.packages.config")
  , endsWithStr (str "nuget.packages")
  , endsWithStr (str "requirements.txt")
  , endsWithStr (str "Pipfile.lock")
  ]

/-- `DEFAULT_NON_CODE_PATTERNS` (case-insensitive, each an alternation of
`$`-anchored extensions). -/
def DEFAULT_NON_CODE_PATTERNS : List (Str → Bool) :=
  [ fun s => [".jpg", ".jpeg", ".png", ".gif", ".ico", ".bmp", ".webp", ".svg"].any
      (fun e => ciEndsWith (str e) s)
  , fun s => [".mp3", ".mp4", ".wav", ".flac", ".ogg", ".webm"].any
      (fun e => ciEndsWith (str e) s)
  , fun s => [".zip", ".tar", ".gz", ".rar", ".7z", ".tar.gz"].any
      (fun e => ciEndsWith (str e) s)
  , fun s => [".pdf", ".doc", ".docx", ".xls", ".xlsx", ".ppt", ".pptx"].any
      (fun e => ciEndsWith (str e) s)
  , fun s => [".eot", ".ttf", ".woff", ".woff2", ".otf"].any
      (fun e => ciEndsWith (str e) s)
  ]

/-- `DEFAULT_TEST_PATTERNS` (case-insensitive). -/
def DEFAULT_TEST_PATTERNS : List (Str → Bool) :=
  [ fun s => [".test.js", ".test.ts", ".test.jsx", ".test.tsx"].any
      (fun e => ciEndsWith (str e) s)
  , fun s => [".spec.js", ".spec.ts", ".spec.jsx", ".spec.tsx"].any
      (fun e => ciEndsWith (str e) s)
  , ciContains (str "__tests__/")
  , fun s => [".test.js.snap", ".test.ts.snap", ".test.jsx.snap", ".test.tsx.snap"].any
      (fun e => ciEndsWith (str e) s)
  , ciContains (str "fixtures/")
  ]

/-- `DEFAULT_CONFIG_PATTERNS` (case-insensitive). -/
def DEFAULT_CONFIG_PATTERNS : List (Str → Bool) :=
  [ ciContains (str ".eslintrc")
  , ciContains (str ".prettierrc")
  , ciEndsWith (str "tsconfig.json")
  , ciContains (str "jest.config.")
  , ciContains (str "vitest.config.")
  , ciContains (str ".vscode/")
  , ciContains (str ".idea/")
  ]

/-- The `DiffSanitizer` class state: its four pattern lists. -/
structure DiffSanitizer where
  lockfilePatterns : List (Str → Bool)
  nonCodePatterns : List (Str → Bool)
  testPatterns : List (Str → Bool)
  configPatterns : List (Str → Bool)

/-- Constructor options of `DiffSanitizer`. -/
structure DiffSanitizerOptions where
  lockfilePatterns : Option (List (Str → Bool)) := none
  nonCodePatterns : Option (List (Str → Bool)) := none
  testPatterns : Option (List (Str → Bool)) := none
  configPatterns : Option (List (Str → Bool)) := none

/-- The `DiffSanitizer` constructor (`options?.x ?? DEFAULT_x`). -/
def DiffSanitizer.ofOptions (options : Option DiffSanitizerOptions) : DiffSanitizer :=
  { lockfilePatterns := (options.bind (·.lockfilePatterns)).getD DEFAULT_LOCKFILE_PATTERNS
  , nonCodePatterns := (options.bind (·.nonCodePatterns)).getD DEFAULT_NON_CODE_PATTERNS
  , testPatterns := (options.bind (·.testPatterns)).getD DEFAULT_TEST_PATTERNS
  , configPatterns := (options.bind (·.configPatterns)).getD DEFAULT_CONFIG_PATTERNS
  }

/-- `DiffSanitizer.isLockfile`. -/
def DiffSanitizer.isLockfile (s : DiffSanitizer) (path : Str) : Bool :=
  s.lockfilePatterns.any (fun pattern => pattern path)

/-- `DiffSanitizer.isNonCodeAsset`. -/
def DiffSanitizer.isNonCodeAsset (s : DiffSanitizer) (path : Str) : Bool :=
  s.nonCodePatterns.any (fun pattern => pattern path)

/-- `DiffSanitizer.isTestFile`. -/
def DiffSanitizer.isTestFile (s : DiffSanitizer) (path : Str) : Bool :=
  s.testPatterns.any (fun pattern => pattern path)

/-- `DiffSanitizer.isConfigFile`. -/
def DiffSanitizer.isConfigFile (s : DiffSanitizer) (path : Str) : Bool :=
  s.configPatterns.any (fun pattern => pattern path)

/-- `DiffSanitizer.filterLockfiles`. -/
def DiffSanitizer.filterLockfiles (s : DiffSanitizer) (files : List ParsedFile) :
    List ParsedFile :=
  files.filter (fun file => !s.isLockfile file.newPath)

/-- `DiffSanitizer.filterNonCodeAssets`. -/
def DiffSanitizer.filterNonCodeAssets (s : DiffSanitizer) (files : List ParsedFile) :
    List ParsedFile :=
  files.filter (fun file => !s.isNonCodeAsset file.newPath)

/-- `DiffSanitizer.filterTestFiles`. -/
def DiffSanitizer.filterTestFiles (s : DiffSanitizer) (files : List ParsedFile) :
    List ParsedFile :=
  files.filter (fun file => !s.isTestFile file.newPath)

/-- `DiffSanitizer.filterConfigFiles`. -/
def DiffSanitizer.filterConfigFiles (s : DiffSanitizer) (files : List ParsedFile) :
    List ParsedFile :=
  files.filter (fun file => !s.isConfigFile file.newPath)

/-- `DiffSanitizer.sanitize`: the lockfile and non-code filters run unless the
option is literally `false` (`!== false`); the test and config filters run only
when the option is truthy (`some true`). -/
def DiffSanitizer.sanitize (s : DiffSanitizer) (files : List ParsedFile)
    (options : SanitizeOptions) : List ParsedFile :=
  let r1 := if options.excludeLockfiles ≠ some false then s.filterLockfiles files else files
  let r2 := if options.excludeNonCodeAssets ≠ some false then s.filterNonCodeAssets r1 else r1
  let r3 := if options.excludeTests = some true then s.filterTestFiles r2 else r2
  if options.excludeConfigs = some true then s.filterConfigFiles r3 else r3

/-! ### Idempotence of `sanitize` (claim C5) -/

/-- C5: for every pattern configuration, file list and fixed option set,
`DiffSanitizer.sanitize` is idempotent:
`sanitize(sanitize(x, o), o) = sanitize(x, o)`. -/
theorem C5_sanitize_idempotent (s : DiffSanitizer) (files : List ParsedFile)
    (options : SanitizeOptions) :
    s.sanitize (s.sanitize files options) options = s.sanitize files options := by
  simp only [DiffSanitizer.sanitize, DiffSanitizer.filterLockfiles,
    DiffSanitizer.filterNonCodeAssets, DiffSanitizer.filterTestFiles,
    DiffSanitizer.filterConfigFiles]
  by_cases h1 : options.excludeLockfiles ≠ some false <;>
    by_cases h2 : options.excludeNonCodeAssets ≠ some false <;>
    by_cases h3 : options.excludeTests = some true <;>
    by_cases h4 : options.excludeConfigs = some true <;>
    simp only [h1, h2, h3, h4, if_true, if_false, ite_true, ite_false, if_neg, if_pos,
      not_false_iff, not_true, List.filter_filter] <;>
    simp_all <;>
    (apply List.filter_congr; intro file _;
     cases hc : s.isConfigFile file.newPath <;>
       cases ht : s.isTestFile file.newPath <;>
       cases hn : s.isNonCodeAsset file.newPath <;>
       cases hl : s.isLockfile file.newPath <;>
       simp [hc, ht, hn, hl])

/-! ## TokenManager (packages/core/src/token-manager.ts)

Token estimation, risk assessment and greedy truncation under a budget.
-/

/-- The `"HIGH" | "MEDIUM" | "LOW"` risk level union type. -/
inductive RiskLevel where
  | HIGH
  | MEDIUM
  | LOW
deriving DecidableEq, Repr

/-- `HIGH_RISK_PATTERNS` of token-manager.ts (all case-insensitive; the
`[_-]?` classes are expanded into their three alternatives). -/
def HIGH_RISK_PATTERNS : List (Str → Bool) :=
  [ ciContains (str "auth")
  , ciContains (str "security")
  , ciContains (str "permission")
  , ciContains (str "role")
  , ciContains (str "access")
  , ciContains (str "login")
  , ciContains (str "logout")
  , ciContains (str "password")
  , ciContains (str "credential")
  , ciContains (str "token")
  , ciContains (str "jwt")
  , ciContains (str "oauth")
  , fun s => ["apikey", "api_key", "api-key"].any (fun e => ciContains (str e) s)
  , ciContains (str "secret")
  , ciContains (str "encryption")
  , ciContains (str "crypt")
  , fun s => ["schemamigration", "schema_migration", "schema-migration"].any
      (fun e => ciContains (str e) s)
  , fun s => ["databasemigration", "database_migration", "database-migration"].any
      (fun e => ciContains (str e) s)
  , fun s => ["sqlmigration", "sql_migration", "sql-migration"].any
      (fun e => ciContains (str e) s)
  ]

/-- `LOW_RISK_PATTERNS` of token-manager.ts (all case-insensitive). -/
def LOW_RISK_PATTERNS : List (Str → Bool) :=
  [ fun s => [".test.js", ".test.ts", ".test.jsx", ".test.tsx"].any
      (fun e => ciEndsWith (str e) s)
  , fun s => [".spec.js", ".spec.ts", ".spec.jsx", ".spec.tsx"].any
      (fun e => ciEndsWith (str e) s)
  , ciContains (str "__tests__/")
  , fun s => [".test.js.snap", ".test.ts.snap", ".test.jsx.snap", ".test.tsx.snap"].any
      (fun e => ciEndsWith (str e) s)
  , ciContains (str "fixtures/")
  , ciContains (str ".eslintrc")
  , ciContains (str ".prettierrc")
  , ciEndsWith (str "tsconfig.json")
  , ciContains (str "jest.config.")
  , ciContains (str "vitest.config.")
  , ciEndsWith (str ".gitignore")
  , ciEndsWith (str ".dockerignore")
  , ciContains (str "readme")
  , ciContains (str "changelog")
  , ciContains (str "license")
  , ciEndsWith (str ".md")
  ]

/-- The `TokenManager` class state: its two pattern lists. -/
structure TokenManager where
  highRiskPatterns : List (Str → Bool)
  lowRiskPatterns : List (Str → Bool)

/-- Constructor options of `TokenManager`. -/
structure TokenManagerOptions where
  highRiskPatterns : Option (List (Str → Bool)) := none
  lowRiskPatterns : Option (List (Str → Bool)) := none

/-- The `TokenManager` constructor (`options?.x ?? DEFAULT`). -/
def TokenManager.ofOptions (options : Option TokenManagerOptions) : TokenManager :=
  { highRiskPatterns := (options.bind (·.highRiskPatterns)).getD HIGH_RISK_PATTERNS
  , lowRiskPatterns := (options.bind (·.lowRiskPatterns)).getD LOW_RISK_PATTERNS
  }

/-- `TokenManager.estimateLineTokens`: `Math.ceil(content.length / 4)`. -/
def TokenManager.estimateLineTokens (content : Str) : Nat :=
  (content.length + 3) / 4

/-- `TokenManager.estimateFileTokens`: path tokens plus, per hunk, a fixed
overhead of 3 plus the per-line estimates. (The method reads no instance
state, so it is modelled as a plain function.) -/
def TokenManager.estimateFileTokens (file : ParsedFile) : Nat :=
  (file.newPath.length + 3) / 4 +
    (file.hunks.map (fun hunk =>
      3 + (hunk.lines.map (fun line => TokenManager.estimateLineTokens line.content)).sum)).sum

/-- `TokenManager.assessRiskLevel`. -/
def TokenManager.assessRiskLevel (tm : TokenManager) (path : Str) : RiskLevel :=
  if tm.highRiskPatterns.any (fun pattern => pattern path) then .HIGH
  else if tm.lowRiskPatterns.any (fun pattern => pattern path) then .LOW
  else .MEDIUM

/-- `TokenWeight`. -/
structure TokenWeight where
  file : ParsedFile
  tokens : Nat
  riskLevel : RiskLevel
deriving DecidableEq, Repr

/-- `TruncateOptions` (`maxTokens` is a JavaScript number set by callers; it is
modelled as an `Int` so that negative budgets are representable). -/
structure TruncateOptions where
  maxTokens : Int
  priorityOrder : Option (List RiskLevel) := none

/-- `TokenManager.calculateWeights`. -/
def TokenManager.calculateWeights (tm : TokenManager) (files : List ParsedFile) :
    List TokenWeight :=
  files.map (fun file =>
    { file := file
    , tokens := TokenManager.estimateFileTokens file
    , riskLevel := tm.assessRiskLevel file.newPath
    })

/-- The comparator of the first sort inside `truncate`
(`priorityA - priorityB`, tie-broken by `a.tokens - b.tokens`), expressed as
the Boolean relation "the comparator is `≤ 0`"; a stable sort under this
relation is exactly the JavaScript stable `Array.prototype.sort` under the
comparator. -/
def truncateSortLe (priorityOrder : List RiskLevel) (a b : TokenWeight) : Bool :=
  let priorityA := jsIndexOf priorityOrder a.riskLevel
  let priorityB := jsIndexOf priorityOrder b.riskLevel
  if priorityA ≠ priorityB then decide (priorityA - priorityB ≤ 0)
  else decide ((a.tokens : Int) - (b.tokens : Int) ≤ 0)

/-- The comparator of the final re-sort inside `truncate`
(`priorityA - priorityB` over the re-assessed risk levels), as the Boolean
relation "the comparator is `≤ 0`". -/
def resultSortLe (tm : TokenManager) (priorityOrder : List RiskLevel) (a b : ParsedFile) : Bool :=
  decide (jsIndexOf priorityOrder (tm.assessRiskLevel a.newPath) -
    jsIndexOf priorityOrder (tm.assessRiskLevel b.newPath) ≤ 0)

/-- The greedy acceptance loop of `truncate`: keep a file iff its tokens still
fit in the remaining budget, accumulating `currentTokens`. -/
def greedyKeep (maxTokens : Int) : Int → List TokenWeight → List TokenWeight
  | _, [] => []
  | currentTokens, w :: rest =>
    if currentTokens + (w.tokens : Int) ≤ maxTokens then
      w :: greedyKeep maxTokens (currentTokens + (w.tokens : Int)) rest
    else
      greedyKeep maxTokens currentTokens rest

/-- `TokenManager.truncate`. -/
def TokenManager.truncate (tm : TokenManager) (files : List ParsedFile)
    (options : TruncateOptions) : List ParsedFile :=
  let priorityOrder := options.priorityOrder.getD [.LOW, .MEDIUM, .HIGH]
  let weights := tm.calculateWeights files
  let sorted := weights.mergeSort (truncateSortLe priorityOrder)
  let kept := greedyKeep options.maxTokens 0 sorted
  let result := kept.map (·.file)
  result.mergeSort (resultSortLe tm priorityOrder)

/-! ### Truncation stays within the budget (claim C1) -/

/-- The greedy loop never exceeds the remaining budget. -/
theorem greedyKeep_sum_le (maxTokens : Int) (l : List TokenWeight) :
    ∀ currentTokens : Int, currentTokens ≤ maxTokens →
      currentTokens + ((greedyKeep maxTokens currentTokens l).map
        (fun w => (w.tokens : Int))).sum ≤ maxTokens := by
  induction l with
  | nil => intro cur h; simpa [greedyKeep] using h
  | cons w rest ih =>
    intro cur h
    by_cases hfit : cur + (w.tokens : Int) ≤ maxTokens
    · have := ih (cur + (w.tokens : Int)) hfit
      simp only [greedyKeep, if_pos hfit, List.map_cons, List.sum_cons]
      omega
    · have := ih cur h
      simp only [greedyKeep, if_neg hfit]
      omega

/-- Every kept weight comes from the input list. -/
theorem greedyKeep_mem (maxTokens : Int) (l : List TokenWeight) :
    ∀ (currentTokens : Int) (w : TokenWeight),
      w ∈ greedyKeep maxTokens currentTokens l → w ∈ l := by
  induction l with
  | nil => intro cur w h; simp [greedyKeep] at h
  | cons v rest ih =>
    intro cur w h
    by_cases hfit : cur + (v.tokens : Int) ≤ maxTokens <;>
      simp only [greedyKeep, if_pos, if_neg, hfit, ite_true, ite_false, List.mem_cons] at h
    · rcases h with h | h
      · exact h ▸ List.mem_cons_self v rest
      · exact List.mem_cons_of_mem v (ih _ w h)
    · exact List.mem_cons_of_mem v (ih _ w h)

/-- Every weight produced by `calculateWeights` carries the token estimate of
its own file, and its file is one of the inputs. -/
theorem calculateWeights_mem (tm : TokenManager) (files : List ParsedFile)
    (w : TokenWeight) (h : w ∈ tm.calculateWeights files) :
    w.tokens = TokenManager.estimateFileTokens w.file ∧ w.file ∈ files := by
  unfold TokenManager.calculateWeights at h
  obtain ⟨f, hf, rfl⟩ := List.mem_map.1 h
  exact ⟨rfl, hf⟩

/-- C1: for every pattern configuration, file list and truncation options with
`maxTokens ≥ 0`, the sum of the per-file token estimates over the output of
`TokenManager.truncate` is at most `maxTokens`, and every output file is one
of the input files taken whole (no partial inclusion). -/
theorem C1_truncate_within_budget (tm : TokenManager) (files : List ParsedFile)
    (options : TruncateOptions) (hmax : 0 ≤ options.maxTokens) :
    ((tm.truncate files options).map
        (fun file => (TokenManager.estimateFileTokens file : Int))).sum ≤ options.maxTokens ∧
      ∀ file ∈ tm.truncate files options, file ∈ files := by
  have htrunc : tm.truncate files options =
      ((greedyKeep options.maxTokens 0
          ((tm.calculateWeights files).mergeSort
            (truncateSortLe (options.priorityOrder.getD [.LOW, .MEDIUM, .HIGH])))).map
        (·.file)).mergeSort
        (resultSortLe tm (options.priorityOrder.getD [.LOW, .MEDIUM, .HIGH])) := rfl
  set po := options.priorityOrder.getD [RiskLevel.LOW, RiskLevel.MEDIUM, RiskLevel.HIGH]
  set sorted := (tm.calculateWeights files).mergeSort (truncateSortLe po) with hsorted
  set kept := greedyKeep options.maxTokens 0 sorted with hkept
  have hkept_weights : ∀ w ∈ kept, w ∈ tm.calculateWeights files := by
    intro w hw
    have hmem : w ∈ sorted := greedyKeep_mem options.maxTokens sorted 0 w hw
    exact (List.mergeSort_perm (tm.calculateWeights files) (truncateSortLe po)).subset
      (hsorted ▸ hmem)
  have hperm : List.Perm (tm.truncate files options) (kept.map (·.file)) := by
    rw [htrunc]
    exact List.mergeSort_perm _ _
  constructor
  · have hsum : ((tm.truncate files options).map
        (fun file => (TokenManager.estimateFileTokens file : Int))).sum =
        ((kept.map (·.file)).map (fun file => (TokenManager.estimateFileTokens file : Int))).sum :=
      (hperm.map _).sum_eq
    rw [hsum, List.map_map]
    have hcongr : kept.map ((fun file => (TokenManager.estimateFileTokens file : Int)) ∘
        (·.file)) = kept.map (fun w => (w.tokens : Int)) := by
      apply List.map_congr_left
      intro w hw
      have := (calculateWeights_mem tm files w (hkept_weights w hw)).1
      simp [Function.comp, this]
    rw [hcongr]
    have hle := greedyKeep_sum_le options.maxTokens sorted 0 hmax
    rw [← hkept] at hle
    omega
  · intro file hfile
    have : file ∈ kept.map (·.file) := hperm.subset hfile
    obtain ⟨w, hw, rfl⟩ := List.mem_map.1 this
    exact (calculateWeights_mem tm files w (hkept_weights w hw)).2

/-- The default `TokenManager` (constructed with no options). -/
def tmDefault : TokenManager := TokenManager.ofOptions none

/-- A file whose path matches the high-risk pattern `/auth/i`. -/
def fileAuth : ParsedFile :=
  { oldPath := str "auth", newPath := str "auth", kind := .modify, hunks := [] }

/-- A file whose path matches the low-risk pattern `/\.md$/i`. -/
def fileDoc : ParsedFile :=
  { oldPath := str "a.md", newPath := str "a.md", kind := .modify, hunks := [] }

/-- Witness for C1 at a concrete input. -/
theorem C1_truncate_within_budget_witness :
    (0 : Int) ≤ (100 : Int) ∧
      (((tmDefault.truncate [fileAuth, fileDoc] { maxTokens := 100 }).map
          (fun file => (TokenManager.estimateFileTokens file : Int))).sum ≤ 100 ∧
        ∀ file ∈ tmDefault.truncate [fileAuth, fileDoc] { maxTokens := 100 },
          file ∈ [fileAuth, fileDoc]) :=
  ⟨by norm_num,
    (C1_truncate_within_budget tmDefault [fileAuth, fileDoc] { maxTokens := 100 }
      (by norm_num)).1,
    (C1_truncate_within_budget tmDefault [fileAuth, fileDoc] { maxTokens := 100 }
      (by norm_num)).2⟩

/-! ### Order of the truncation output (claim C2) -/

/-- Importance rank taken from the claim's words: HIGH is most important,
then MEDIUM, then LOW (spec-side definition, for refutation only). -/
def importanceRank : RiskLevel → Nat
  | .HIGH => 2
  | .MEDIUM => 1
  | .LOW => 0

/-- Spec-side reading of claim C2: the output is sorted with the most
important risk tier first (HIGH before MEDIUM before LOW by default). -/
def specMostImportantFirst (tm : TokenManager) (l : List ParsedFile) : Prop :=
  l.Pairwise (fun a b =>
    importanceRank (tm.assessRiskLevel b.newPath) ≤ importanceRank (tm.assessRiskLevel a.newPath))

unseal List.merge List.mergeSort in
/-- Counterexample to C2: with the default priority order, a LOW-risk file is
placed before a HIGH-risk file in the output of `truncate`. -/
theorem C2_counterexample :
    tmDefault.truncate [fileAuth, fileDoc] { maxTokens := 100 } = [fileDoc, fileAuth] ∧
      tmDefault.assessRiskLevel fileAuth.newPath = RiskLevel.HIGH ∧
      tmDefault.assessRiskLevel fileDoc.newPath = RiskLevel.LOW ∧
      ¬ specMostImportantFirst tmDefault
          (tmDefault.truncate [fileAuth, fileDoc] { maxTokens := 100 }) := by
  have heval : tmDefault.truncate [fileAuth, fileDoc] { maxTokens := 100 } =
      [fileDoc, fileAuth] := by rfl
  refine ⟨heval, by decide, by decide, ?_⟩
  rw [heval]
  unfold specMostImportantFirst
  rw [List.pairwise_cons]
  intro h
  have := h.1 fileAuth (List.mem_cons_self fileAuth [])
  revert this
  decide

/-- C2 (amended): the output of `truncate` is sorted by ascending position of
the file's risk tier in `priorityOrder` — i.e. the LEAST important tier first
under the default order `[LOW, MEDIUM, HIGH]` — independent of input order. -/
theorem C2_amended_truncate_sorted (tm : TokenManager) (files : List ParsedFile)
    (options : TruncateOptions) :
    (tm.truncate files options).Pairwise (fun a b =>
      jsIndexOf (options.priorityOrder.getD [.LOW, .MEDIUM, .HIGH])
          (tm.assessRiskLevel a.newPath) ≤
        jsIndexOf (options.priorityOrder.getD [.LOW, .MEDIUM, .HIGH])
          (tm.assessRiskLevel b.newPath)) := by
  have htrunc : tm.truncate files options =
      ((greedyKeep options.maxTokens 0
          ((tm.calculateWeights files).mergeSort
            (truncateSortLe (options.priorityOrder.getD [.LOW, .MEDIUM, .HIGH])))).map
        (·.file)).mergeSort
        (resultSortLe tm (options.priorityOrder.getD [.LOW, .MEDIUM, .HIGH])) := rfl
  rw [htrunc]
  have hsorted := @List.sorted_mergeSort ParsedFile
    (resultSortLe tm (options.priorityOrder.getD [.LOW, .MEDIUM, .HIGH]))
    (fun a b c hab hbc => by
      simp only [resultSortLe, decide_eq_true_eq] at hab hbc ⊢
      omega)
    (fun a b => by
      simp only [resultSortLe, Bool.or_eq_true, decide_eq_true_eq]
      omega)
    ((greedyKeep options.maxTokens 0
        ((tm.calculateWeights files).mergeSort
          (truncateSortLe (options.priorityOrder.getD [.LOW, .MEDIUM, .HIGH])))).map
      (·.file))
  refine hsorted.imp ?_
  intro a b hab
  simpa [resultSortLe, sub_nonpos] using hab

/-! ## ImpactScorer (ai-engine impact-scorer)

Per-file risk classification against three ordered pattern lists, aggregate
risk and numeric impact score.
-/

/-- Matcher for the regex `/rate[\s-]?limit/i` on an (already lowercased)
string: `rate`, then at most one whitespace or hyphen, then `limit`. -/
def rateLimitHit (s : Str) : Bool :=
  s.tails.any (fun t =>
    (str "rate").isPrefixOf t &&
      (let rest := t.drop 4
       (str "limit").isPrefixOf rest ||
         (match rest with
          | [] => false
          | c :: rest2 => (isJsWs c || c = '-') && (str "limit").isPrefixOf rest2)))

/-- Matcher for the regex `/https?\.config/i` on an (already lowercased)
string: `http`, then at most one `s`, then `.config`. -/
def httpConfigHit (s : Str) : Bool :=
  containsStr (str "http.config") s || containsStr (str "https.config") s

/-- The shapes of regexes used by the impact-scorer pattern tables: a
`$`-anchored literal (`ends`), an unanchored literal (`has`), and the two
patterns with an optional character class. All are case-insensitive. -/
inductive RPat where
  | ends (suffix : Str)
  | has (sub : Str)
  | rateLimit
  | httpConfig
deriving DecidableEq, Repr

/-- Evaluate an impact-scorer regex against a string (`/i`: the subject is
lowercased; pattern literals are written lowercase). -/
def RPat.test : RPat → Str → Bool
  | .ends suffix, s => endsWithStr suffix (jsToLower s)
  | .has sub, s => containsStr sub (jsToLower s)
  | .rateLimit, s => rateLimitHit (jsToLower s)
  | .httpConfig, s => httpConfigHit (jsToLower s)

/-- One `{ pattern, reason }` entry of the impact-scorer tables. -/
structure RiskPattern where
  pattern : RPat
  reason : Str
deriving DecidableEq, Repr

/-- `DEFAULT_HIGH_RISK_PATTERNS` (impact-scorer). -/
def DEFAULT_HIGH_RISK_PATTERNS : List RiskPattern :=
  [ { pattern := .ends (str "auth.js"), reason := str "Authentication logic" }
  , { pattern := .ends (str "auth.ts"), reason := str "Authentication logic" }
  , { pattern := .ends (str "login.js"), reason := str "Login handling" }
  , { pattern := .ends (str "login.ts"), reason := str "Login handling" }
  , { pattern := .ends (str "logout.js"), reason := str "Logout handling" }
  , { pattern := .ends (str "logout.ts"), reason := str "Logout handling" }
  , { pattern := .ends (str "session.js"), reason := str "Session management" }
  , { pattern := .ends (str "session.ts"), reason := str "Session management" }
  , { pattern := .ends (str "jwt.js"), reason := str "JWT handling" }
  , { pattern := .ends (str "jwt.ts"), reason := str "JWT handling" }
  , { pattern := .ends (str "oauth.js"), reason := str "OAuth handling" }
  , { pattern := .ends (str "oauth.ts"), reason := str "OAuth handling" }
  , { pattern := .ends (str "password.js"), reason := str "Password handling" }
  , { pattern := .ends (str "password.ts"), reason := str "Password handling" }
  , { pattern := .has (str "credential"), reason := str "Credentials handling" }
  , { pattern := .has (str "secret"), reason := str "Secrets handling" }
  , { pattern := .has (str "apikey"), reason := str "API key handling" }
  , { pattern := .ends (str "schema.js"), reason := str "Database schema" }
  , { pattern := .ends (str "schema.ts"), reason := str "Database schema" }
  , { pattern := .has (str "migration"), reason := str "Database migration" }
  , { pattern := .has (str "seeder"), reason := str "Database seeding" }
  , { pattern := .has (str "permission"), reason := str "Permission logic" }
  , { pattern := .has (str "role"), reason := str "Role-based access" }
  , { pattern := .ends (str "access.js"), reason := str "Access control" }
  , { pattern := .ends (str "access.ts"), reason := str "Access control" }
  , { pattern := .has (str "security"), reason := str "Security-related" }
  , { pattern := .has (str "firewall"), reason := str "Firewall rules" }
  , { pattern := .rateLimit, reason := str "Rate limiting" }
  , { pattern := .has (str "csrf"), reason := str "CSRF protection" }
  , { pattern := .has (str "cors"), reason := str "CORS configuration" }
  , { pattern := .has (str "ssl"), reason := str "SSL/TLS configuration" }
  , { pattern := .httpConfig, reason := str "HTTP configuration" }
  ]

/-- `DEFAULT_MEDIUM_RISK_PATTERNS` (impact-scorer). -/
def DEFAULT_MEDIUM_RISK_PATTERNS : List RiskPattern :=
  [ { pattern := .ends (str "controller.js"), reason := str "API controller" }
  , { pattern := .ends (str "controller.ts"), reason := str "API controller" }
  , { pattern := .ends (str "service.js"), reason := str "Business logic" }
  , { pattern := .ends (str "service.ts"), reason := str "Business logic" }
  , { pattern := .ends (str "route.js"), reason := str "API route" }
  , { pattern := .ends (str "route.ts"), reason := str "API route" }
  , { pattern := .has (str "endpoint"), reason := str "API endpoint" }
  , { pattern := .ends (str "api.js"), reason := str "API definition" }
  , { pattern := .ends (str "api.ts"), reason := str "API definition" }
  , { pattern := .ends (str "handler.js"), reason := str "Request handler" }
  , { pattern := .ends (str "handler.ts"), reason := str "Request handler" }
  , { pattern := .has (str "middleware"), reason := str "Middleware" }
  , { pattern := .has (str "validator"), reason := str "Input validation" }
  , { pattern := .has (str "serializer"), reason := str "Response serialization" }
  , { pattern := .has (str "transformer"), reason := str "Data transformation" }
  , { pattern := .ends (str "model.js"), reason := str "Data model" }
  , { pattern := .ends (str "model.ts"), reason := str "Data model" }
  , { pattern := .has (str "entity"), reason := str "Database entity" }
  , { pattern := .has (str "repository"), reason := str "Data repository" }
  , { pattern := .has (str "dao"), reason := str "Data access object" }
  ]

/-- `DEFAULT_LOW_RISK_PATTERNS` (impact-scorer). -/
def DEFAULT_LOW_RISK_PATTERNS : List RiskPattern :=
  [ { pattern := .ends (str "test.js"), reason := str "Test file" }
  , { pattern := .ends (str "test.ts"), reason := str "Test file" }
  , { pattern := .ends (str ".spec.js"), reason := str "Test file" }
  , { pattern := .ends (str ".spec.ts"), reason := str "Test file" }
  , { pattern := .ends (str ".test.js"), reason := str "Test file" }
  , { pattern := .ends (str ".test.ts"), reason := str "Test file" }
  , { pattern := .has (str "fixture"), reason := str "Test fixture" }
  , { pattern := .has (str "mock"), reason := str "Test mock" }
  , { pattern := .ends (str ".d.ts"), reason := str "Type definition" }
  , { pattern := .ends (str "types.js"), reason := str "Type definitions" }
  , { pattern := .ends (str "types.ts"), reason := str "Type definitions" }
  , { pattern := .ends (str "types.d.ts"), reason := str "Type definitions" }
  , { pattern := .has (str "readme"), reason := str "Documentation" }
  , { pattern := .has (str "changelog"), reason := str "Changelog" }
  , { pattern := .has (str "license"), reason := str "License file" }
  , { pattern := .ends (str ".md"), reason := str "Markdown documentation" }
  , { pattern := .ends (str ".json"), reason := str "JSON config (low risk)" }
  , { pattern := .ends (str ".yml"), reason := str "YAML config (low risk)" }
  , { pattern := .ends (str ".yaml"), reason := str "YAML config (low risk)" }
  , { pattern := .has (str ".env"), reason := str "Environment config" }
  , { pattern := .has (str "gitignore"), reason := str "Git ignore" }
  , { pattern := .has (str "dockerfile"), reason := str "Docker configuration" }
  , { pattern := .has (str "docker-compose"), reason := str "Docker compose" }
  , { pattern := .has (str ".dockerignore"), reason := str "Docker ignore" }
  ]

/-- A caller-supplied custom pattern (`ImpactScorerOptions.customPatterns`
entry). -/
structure CustomPattern where
  pattern : RPat
  riskLevel : RiskLevel
  reason : Str
deriving DecidableEq, Repr

/-- `ImpactScorerOptions`. -/
structure ImpactScorerOptions where
  customPatterns : Option (List CustomPattern) := none

/-- The `ImpactScorer` class state: its three pattern lists. -/
structure ImpactScorer where
  highRiskPatterns : List RiskPattern
  mediumRiskPatterns : List RiskPattern
  lowRiskPatterns : List RiskPattern

/-- The `ImpactScorer` constructor: each tier is the default table followed by
the caller's custom patterns of that tier. -/
def ImpactScorer.ofOptions (options : Option ImpactScorerOptions) : ImpactScorer :=
  { highRiskPatterns := DEFAULT_HIGH_RISK_PATTERNS ++
      (((options.bind (·.customPatterns)).getD []).filter
        (fun p => decide (p.riskLevel = .HIGH))).map
        (fun p => { pattern := p.pattern, reason := p.reason })
  , mediumRiskPatterns := DEFAULT_MEDIUM_RISK_PATTERNS ++
      (((options.bind (·.customPatterns)).getD []).filter
        (fun p => decide (p.riskLevel = .MEDIUM))).map
        (fun p => { pattern := p.pattern, reason := p.reason })
  , lowRiskPatterns := DEFAULT_LOW_RISK_PATTERNS ++
      (((options.bind (·.customPatterns)).getD []).filter
        (fun p => decide (p.riskLevel = .LOW))).map
        (fun p => { pattern := p.pattern, reason := p.reason })
  }

/-- `file.split("/").pop() ?? file` at the start of `assessFile`. -/
def baseName (file : Str) : Str :=
  ((file.splitOn '/').getLast?).getD file

/-- `FileImpact`. -/
structure FileImpact where
  file : Str
  riskLevel : RiskLevel
  reasons : List Str
deriving DecidableEq, Repr

/-- `ImpactScorer.assessFile`: first matching pattern wins, tier by tier; a
file matching nothing is a MEDIUM "Standard code change". -/
def ImpactScorer.assessFile (scorer : ImpactScorer) (file : Str) : FileImpact :=
  match scorer.highRiskPatterns.find? (fun rp => rp.pattern.test (baseName file)) with
  | some rp => { file := file, riskLevel := .HIGH, reasons := [rp.reason] }
  | none =>
    match scorer.mediumRiskPatterns.find? (fun rp => rp.pattern.test (baseName file)) with
    | some rp => { file := file, riskLevel := .MEDIUM, reasons := [rp.reason] }
    | none =>
      match scorer.lowRiskPatterns.find? (fun rp => rp.pattern.test (baseName file)) with
      | some rp => { file := file, riskLevel := .LOW, reasons := [rp.reason] }
      | none => { file := file, riskLevel := .MEDIUM, reasons := [str "Standard code change"] }

/-- `ImpactScorer.assessFiles`. -/
def ImpactScorer.assessFiles (scorer : ImpactScorer) (files : List Str) : List FileImpact :=
  files.map (fun file => scorer.assessFile file)

/-- `const highCount` of `calculateOverallRisk` / `getRiskSummary`. -/
def highCount (scorer : ImpactScorer) (files : List Str) : Nat :=
  ((scorer.assessFiles files).filter (fun i => decide (i.riskLevel = RiskLevel.HIGH))).length

/-- `const mediumCount` of `calculateOverallRisk` / `getRiskSummary`. -/
def mediumCount (scorer : ImpactScorer) (files : List Str) : Nat :=
  ((scorer.assessFiles files).filter (fun i => decide (i.riskLevel = RiskLevel.MEDIUM))).length

/-- `const lowCount` of `calculateOverallRisk` / `getRiskSummary`. -/
def lowCount (scorer : ImpactScorer) (files : List Str) : Nat :=
  ((scorer.assessFiles files).filter (fun i => decide (i.riskLevel = RiskLevel.LOW))).length

/-- `const total` of `calculateOverallRisk`. -/
def totalCount (scorer : ImpactScorer) (files : List Str) : Nat :=
  (scorer.assessFiles files).length

/-- `ImpactScorer.calculateOverallRisk`: ratio cascade over the assessed
counts (ratios taken in `ℚ`; the JavaScript float comparisons at 0.2, 0.1 and
0.5 are exact for these operands). -/
def ImpactScorer.calculateOverallRisk (scorer : ImpactScorer) (files : List Str) : RiskLevel :=
  if totalCount scorer files = 0 then .LOW
  else if ((highCount scorer files : ℚ) / (totalCount scorer files : ℚ)) ≥ 0.2 then .HIGH
  else if ((highCount scorer files : ℚ) / (totalCount scorer files : ℚ)) ≥ 0.1 then .MEDIUM
  else if 0 < highCount scorer files then .MEDIUM
  else if ((mediumCount scorer files : ℚ) / (totalCount scorer files : ℚ)) ≥ 0.5 then .MEDIUM
  else .LOW

/-- The per-file weight of `calculateImpactScore` (10 / 5 / 1; the switch's
unreachable `default: 5` branch has no counterpart for a three-valued enum).
The weights, their running sum and `maxPossibleScore` are small integers,
exact in binary64, so they are carried in `ℚ` directly. -/
def riskWeight : RiskLevel → ℚ
  | .HIGH => 10
  | .MEDIUM => 5
  | .LOW => 1

/-- `2^k` in `ℚ` for an integer exponent. -/
def pow2 (k : Int) : ℚ :=
  if 0 ≤ k then ((2 ^ k.toNat : Nat) : ℚ) else 1 / ((2 ^ (-k).toNat : Nat) : ℚ)

/-- Floor of a rational, via floor division of its numerator by its
denominator. -/
def ratFloor (q : ℚ) : Int := Int.fdiv q.num (q.den : Int)

/-- Round a rational to the nearest integer, ties to even. -/
def roundHalfEven (q : ℚ) : Int :=
  if q - (ratFloor q : ℚ) < 1/2 then ratFloor q
  else if (1 : ℚ)/2 < q - (ratFloor q : ℚ) then ratFloor q + 1
  else if ratFloor q % 2 = 0 then ratFloor q else ratFloor q + 1

/-- Base-2 logarithm on `Nat` (fuel-indexed so that it reduces; the fuel
argument only needs to be at least `log2 n`, and `n` always is). -/
def natLog2Go : Nat → Nat → Nat
  | 0, _ => 0
  | fuel + 1, n => if 2 ≤ n then natLog2Go fuel (n / 2) + 1 else 0

/-- `⌊log2 n⌋` for `n ≥ 1`. -/
def natLog2 (n : Nat) : Nat := natLog2Go n n

/-- The binary exponent `e` of a positive rational: `2^e ≤ x < 2^(e+1)`. -/
def expOf (x : ℚ) : Int :=
  let e0 : Int := (natLog2 x.num.toNat : Int) - (natLog2 x.den : Int)
  if pow2 e0 ≤ x then e0 else e0 - 1

/-- Round a positive rational to the nearest binary64 value (53-bit
significand, round-to-nearest, ties-to-even). -/
def flPos (x : ℚ) : ℚ :=
  ((roundHalfEven (x / pow2 (expOf x - 52)) : ℚ)) * pow2 (expOf x - 52)

/-- Round a rational to the nearest binary64 value (normal range; this code
path never reaches subnormals or overflow). -/
def fl (x : ℚ) : ℚ :=
  if x = 0 then 0 else if x < 0 then -(flPos (-x)) else flPos x

/-- IEEE-754 binary64 division (correctly rounded). -/
def jsDiv (a b : ℚ) : ℚ := fl (a / b)

/-- IEEE-754 binary64 multiplication (correctly rounded). -/
def jsMul (a b : ℚ) : ℚ := fl (a * b)

/-- ECMAScript `Math.round` on a double value: the closest integer, ties
toward `+∞` (evaluated exactly on the rational representing the double). -/
def jsRound (x : ℚ) : Int := ratFloor (x + 1/2)

/-- `ImpactScorer.calculateImpactScore`:
`Math.round((totalScore / maxPossibleScore) * 100)` with the division and
multiplication performed in binary64, and 0 when there are no files. -/
def ImpactScorer.calculateImpactScore (scorer : ImpactScorer) (files : List Str) : Int :=
  if ((scorer.assessFiles files).length * 10 : ℚ) = 0 then 0
  else jsRound (jsMul
    (jsDiv (((scorer.assessFiles files).map (fun i => riskWeight i.riskLevel)).sum)
      ((scorer.assessFiles files).length * 10 : ℚ)) 100)

/-! ### Aggregate risk thresholds (claim C3) -/

/-- C3: with `h`, `m` the counts of files assessed HIGH and MEDIUM and `n`
their total, `calculateOverallRisk` returns LOW when `n = 0`; HIGH when
`h/n >= 0.20`; MEDIUM when `0.10 <= h/n < 0.20`, when `h > 0` with
`h/n < 0.10`, or when `m/n >= 0.50` (and `h/n < 0.20`); and LOW otherwise. -/
theorem C3_calculateOverallRisk_thresholds (options : Option ImpactScorerOptions)
    (files : List Str) :
    (totalCount (ImpactScorer.ofOptions options) files = 0 →
      (ImpactScorer.ofOptions options).calculateOverallRisk files = RiskLevel.LOW) ∧
    (totalCount (ImpactScorer.ofOptions options) files ≠ 0 →
      ((highCount (ImpactScorer.ofOptions options) files : ℚ) /
          (totalCount (ImpactScorer.ofOptions options) files : ℚ) ≥ 0.2 →
        (ImpactScorer.ofOptions options).calculateOverallRisk files = RiskLevel.HIGH) ∧
      ((0.1 : ℚ) ≤ (highCount (ImpactScorer.ofOptions options) files : ℚ) /
          (totalCount (ImpactScorer.ofOptions options) files : ℚ) →
        (highCount (ImpactScorer.ofOptions options) files : ℚ) /
          (totalCount (ImpactScorer.ofOptions options) files : ℚ) < 0.2 →
        (ImpactScorer.ofOptions options).calculateOverallRisk files = RiskLevel.MEDIUM) ∧
      (0 < highCount (ImpactScorer.ofOptions options) files →
        (highCount (ImpactScorer.ofOptions options) files : ℚ) /
          (totalCount (ImpactScorer.ofOptions options) files : ℚ) < 0.1 →
        (ImpactScorer.ofOptions options).calculateOverallRisk files = RiskLevel.MEDIUM) ∧
      ((mediumCount (ImpactScorer.ofOptions options) files : ℚ) /
          (totalCount (ImpactScorer.ofOptions options) files : ℚ) ≥ 0.5 →
        (highCount (ImpactScorer.ofOptions options) files : ℚ) /
          (totalCount (ImpactScorer.ofOptions options) files : ℚ) < 0.2 →
        (ImpactScorer.ofOptions options).calculateOverallRisk files = RiskLevel.MEDIUM) ∧
      (highCount (ImpactScorer.ofOptions options) files = 0 →
        (mediumCount (ImpactScorer.ofOptions options) files : ℚ) /
          (totalCount (ImpactScorer.ofOptions options) files : ℚ) < 0.5 →
        (ImpactScorer.ofOptions options).calculateOverallRisk files = RiskLevel.LOW)) := by
  unfold ImpactScorer.calculateOverallRisk
  split_ifs with h1 h2 h3 h4 h5 <;>
    refine ⟨fun hn => ?_, fun hn =>
      ⟨fun hc1 => ?_, fun hc1 hc2 => ?_, fun hc1 hc2 => ?_, fun hc1 hc2 => ?_,
        fun hc1 hc2 => ?_⟩⟩ <;>
    first
      | rfl
      | omega
      | linarith
      | (exfalso; simp only [hc1, Nat.cast_zero, zero_div] at h3; norm_num at h3)
      | (exfalso; simp only [hc1, Nat.cast_zero, zero_div] at h2; norm_num at h2)

/-- Witness for C3 at a concrete input (one HIGH file out of one). -/
theorem C3_calculateOverallRisk_thresholds_witness :
    (ImpactScorer.ofOptions none).calculateOverallRisk [str "src/auth/login.ts"] =
      RiskLevel.HIGH := by
  apply ((C3_calculateOverallRisk_thresholds none [str "src/auth/login.ts"]).2
    (by decide)).1
  have h1 : highCount (ImpactScorer.ofOptions none) [str "src/auth/login.ts"] = 1 := by decide
  have h2 : totalCount (ImpactScorer.ofOptions none) [str "src/auth/login.ts"] = 1 := by decide
  rw [h1, h2]
  norm_num

/-! ### Impact score formula (claim C4) -/

/-- Helper: `calculateImpactScore` as a closed formula over the weights (the
binary64 operations written out, with the budget denominator in the claim's
`10*n` order). -/
theorem calculateImpactScore_eq (options : Option ImpactScorerOptions) (files : List Str) :
    (ImpactScorer.ofOptions options).calculateImpactScore files =
      if files.length = 0 then 0
      else jsRound (jsMul
        (jsDiv (((ImpactScorer.ofOptions options).assessFiles files).map
            (fun i => riskWeight i.riskLevel)).sum
          (10 * (files.length : ℚ))) 100) := by
  unfold ImpactScorer.calculateImpactScore
  have hlen : ((ImpactScorer.ofOptions options).assessFiles files).length = files.length := by
    unfold ImpactScorer.assessFiles
    exact List.length_map files _
  rw [hlen]
  by_cases hn : files.length = 0
  · rw [if_pos (by rw [hn]; norm_num), if_pos hn]
  · rw [if_neg (by
      intro hcontra
      apply hn
      have h0 : ((files.length : ℚ)) = 0 := by
        have h10 : ((files.length : ℚ)) * 10 = 0 := by exact_mod_cast hcontra
        linarith
      exact_mod_cast h0), if_neg hn, mul_comm ((files.length : ℚ)) (10 : ℚ)]

/-- The 8-file list (2 HIGH + 5 MEDIUM + 1 LOW) on which binary64 rounding
is observable. -/
def files8 : List Str :=
  [ str "auth.ts", str "login.ts", str "controller.ts", str "service.ts"
  , str "route.ts", str "model.ts", str "api.ts", str "a.md" ]

unseal Rat.add Rat.mul Rat.inv Rat.sub in
/-- Counterexample to C4: on `files8` the weights sum to 46 over a maximum of
80, JavaScript evaluates `(46/80)*100` in binary64 to `57.49999999999999...`
and `Math.round` returns 57, while the claim's exact formula
`round(100·46/80) = round(57.5)` gives 58. -/
theorem C4_counterexample :
    (ImpactScorer.ofOptions none).calculateImpactScore files8 = 57 ∧
      round ((100 : ℚ) *
          (((ImpactScorer.ofOptions none).assessFiles files8).map
            (fun i => riskWeight i.riskLevel)).sum / (10 * (files8.length : ℚ))) = 58 ∧
      (ImpactScorer.ofOptions none).calculateImpactScore files8 ≠
        round ((100 : ℚ) *
          (((ImpactScorer.ofOptions none).assessFiles files8).map
            (fun i => riskWeight i.riskLevel)).sum / (10 * (files8.length : ℚ))) := by
  have h57 : (ImpactScorer.ofOptions none).calculateImpactScore files8 = 57 := by decide
  have hmap : ((ImpactScorer.ofOptions none).assessFiles files8).map
      (fun i => riskWeight i.riskLevel) = [10, 10, 5, 5, 5, 5, 5, 1] := by decide
  have hlen : (files8.length : ℚ) = 8 := by decide
  have h58 : round ((100 : ℚ) *
      (((ImpactScorer.ofOptions none).assessFiles files8).map
        (fun i => riskWeight i.riskLevel)).sum / (10 * (files8.length : ℚ))) = 58 := by
    rw [hmap, hlen]
    norm_num [round_eq]
  refine ⟨h57, h58, ?_⟩
  rw [h57, h58]
  decide

unseal Rat.add Rat.mul Rat.inv Rat.sub in
/-- C4 (amended): `calculateImpactScore` weighs files 10/5/1 by assessed
tier and returns `Math.round` of the binary64 evaluation of
`(Σweights/(10·n))·100` (0 for the empty list) — which differs from exact
`round(100·Σ/(10n))` where double rounding shifts a halfway value, as on
`files8`; a path matching no pattern of any tier is assessed MEDIUM; and the
concrete two-file list `["src/auth/login.ts", "src/utils/helpers.ts"]`
(exactly representable throughout) scores 75. -/
theorem C4_amended_calculateImpactScore_float :
    (∀ (options : Option ImpactScorerOptions) (files : List Str),
      (ImpactScorer.ofOptions options).calculateImpactScore files =
        if files.length = 0 then 0
        else jsRound (jsMul
          (jsDiv (((ImpactScorer.ofOptions options).assessFiles files).map
              (fun i => riskWeight i.riskLevel)).sum
            (10 * (files.length : ℚ))) 100)) ∧
    (∀ (scorer : ImpactScorer) (file : Str),
      (∀ rp ∈ scorer.highRiskPatterns ++ scorer.mediumRiskPatterns ++ scorer.lowRiskPatterns,
        rp.pattern.test (baseName file) = false) →
      (scorer.assessFile file).riskLevel = RiskLevel.MEDIUM) ∧
    (ImpactScorer.ofOptions none).calculateImpactScore
      [str "src/auth/login.ts", str "src/utils/helpers.ts"] = 75 := by
  refine ⟨calculateImpactScore_eq, fun scorer file hnone => ?_, by decide⟩
  unfold ImpactScorer.assessFile
  simp only [List.mem_append] at hnone
  rw [List.find?_eq_none.2 (fun rp hrp => by
      simp [hnone rp (Or.inl (Or.inl hrp))]),
    List.find?_eq_none.2 (fun rp hrp => by
      simp [hnone rp (Or.inl (Or.inr hrp))]),
    List.find?_eq_none.2 (fun rp hrp => by
      simp [hnone rp (Or.inr hrp)])]

/-- Witness for C4 (amended): the no-pattern-matches hypothesis discharged at
`src/utils/helpers.ts` against the default scorer. -/
theorem C4_amended_calculateImpactScore_float_witness :
    ((ImpactScorer.ofOptions none).assessFile (str "src/utils/helpers.ts")).riskLevel =
      RiskLevel.MEDIUM :=
  C4_amended_calculateImpactScore_float.2.1 (ImpactScorer.ofOptions none)
    (str "src/utils/helpers.ts") (by decide)

/-! ### Custom-pattern precedence (claim C9) -/

/-- A caller-supplied HIGH-tier custom pattern whose matcher also overlaps a
built-in HIGH pattern on the name `auth.ts`. -/
def customAuthPattern : CustomPattern :=
  { pattern := .has (str "auth"), riskLevel := .HIGH, reason := str "Custom auth handler" }

/-- A scorer constructed with that custom pattern. -/
def scorerWithCustom : ImpactScorer :=
  ImpactScorer.ofOptions (some { customPatterns := some [customAuthPattern] })

/-- Counterexample to C9: on `auth.ts` both the custom HIGH pattern and the
built-in HIGH pattern `/auth\.ts$/i` match, yet the returned reason is the
built-in's, not the custom pattern's. -/
theorem C9_counterexample :
    RPat.test customAuthPattern.pattern (str "auth.ts") = true ∧
      DEFAULT_HIGH_RISK_PATTERNS.any (fun rp => rp.pattern.test (str "auth.ts")) = true ∧
      (scorerWithCustom.assessFile (str "auth.ts")).reasons = [str "Authentication logic"] ∧
      (scorerWithCustom.assessFile (str "auth.ts")).reasons ≠ [customAuthPattern.reason] := by
  decide

/-- Any first match among the default patterns survives an append on the
right. -/
theorem find?_append_left {α : Type} (l₁ l₂ : List α) (p : α → Bool) (a : α)
    (h : l₁.find? p = some a) : (l₁ ++ l₂).find? p = some a := by
  induction l₁ with
  | nil => simp [List.find?] at h
  | cons x xs ih =>
    rw [List.cons_append]
    by_cases hx : p x
    · rw [List.find?_cons_of_pos _ hx] at h
      rw [List.find?_cons_of_pos _ hx]
      exact h
    · rw [List.find?_cons_of_neg _ (by simpa using hx)] at h
      rw [List.find?_cons_of_neg _ (by simpa using hx)]
      exact ih h

/-- A caller-supplied MEDIUM-tier custom pattern whose matcher also overlaps
the built-in MEDIUM pattern `/controller\.ts$/i` on the name
`controller.ts`. -/
def customControllerPattern : CustomPattern :=
  { pattern := .has (str "controller"), riskLevel := .MEDIUM
  , reason := str "Custom controller handler" }

/-- A scorer constructed with that MEDIUM custom pattern. -/
def scorerWithCustomMedium : ImpactScorer :=
  ImpactScorer.ofOptions (some { customPatterns := some [customControllerPattern] })

/-- A caller-supplied LOW-tier custom pattern whose matcher also overlaps the
built-in LOW pattern `/\.md$/i` on the name `a.md`. -/
def customMarkdownPattern : CustomPattern :=
  { pattern := .ends (str ".md"), riskLevel := .LOW
  , reason := str "Custom markdown handler" }

/-- A scorer constructed with that LOW custom pattern. -/
def scorerWithCustomLow : ImpactScorer :=
  ImpactScorer.ofOptions (some { customPatterns := some [customMarkdownPattern] })

/-- C9 (amended): within each tier the built-in patterns are checked BEFORE
any caller-supplied custom patterns of that tier. Whenever some built-in
pattern of a tier matches the file's base name (and, for MEDIUM and LOW, no
pattern of the earlier tiers — built-in or custom — matched), `assessFile`
returns that first built-in match's tier and reason, whatever custom
patterns were supplied; in particular when both a custom and a built-in
pattern of one tier match, the built-in's reason is returned. -/
theorem C9_amended_builtin_patterns_first (options : Option ImpactScorerOptions)
    (file : Str) :
    (∀ rp : RiskPattern,
      DEFAULT_HIGH_RISK_PATTERNS.find? (fun p => p.pattern.test (baseName file)) = some rp →
      (ImpactScorer.ofOptions options).assessFile file =
        { file := file, riskLevel := .HIGH, reasons := [rp.reason] }) ∧
    (∀ rp : RiskPattern,
      (ImpactScorer.ofOptions options).highRiskPatterns.find?
          (fun p => p.pattern.test (baseName file)) = none →
      DEFAULT_MEDIUM_RISK_PATTERNS.find? (fun p => p.pattern.test (baseName file)) = some rp →
      (ImpactScorer.ofOptions options).assessFile file =
        { file := file, riskLevel := .MEDIUM, reasons := [rp.reason] }) ∧
    (∀ rp : RiskPattern,
      (ImpactScorer.ofOptions options).highRiskPatterns.find?
          (fun p => p.pattern.test (baseName file)) = none →
      (ImpactScorer.ofOptions options).mediumRiskPatterns.find?
          (fun p => p.pattern.test (baseName file)) = none →
      DEFAULT_LOW_RISK_PATTERNS.find? (fun p => p.pattern.test (baseName file)) = some rp →
      (ImpactScorer.ofOptions options).assessFile file =
        { file := file, riskLevel := .LOW, reasons := [rp.reason] }) := by
  refine ⟨fun rp hfind => ?_, fun rp hhigh hfind => ?_, fun rp hhigh hmed hfind => ?_⟩
  · have h1 : (ImpactScorer.ofOptions options).highRiskPatterns.find?
        (fun p => p.pattern.test (baseName file)) = some rp :=
      find?_append_left DEFAULT_HIGH_RISK_PATTERNS _ _ rp hfind
    unfold ImpactScorer.assessFile
    rw [h1]
  · have h2 : (ImpactScorer.ofOptions options).mediumRiskPatterns.find?
        (fun p => p.pattern.test (baseName file)) = some rp :=
      find?_append_left DEFAULT_MEDIUM_RISK_PATTERNS _ _ rp hfind
    unfold ImpactScorer.assessFile
    rw [hhigh, h2]
  · have h3 : (ImpactScorer.ofOptions options).lowRiskPatterns.find?
        (fun p => p.pattern.test (baseName file)) = some rp :=
      find?_append_left DEFAULT_LOW_RISK_PATTERNS _ _ rp hfind
    unfold ImpactScorer.assessFile
    rw [hhigh, hmed, h3]

/-- Witness for C9 (amended), exercising all three tiers: each scorer carries
a custom pattern that matches the file, yet the built-in reason of the same
tier is returned. -/
theorem C9_amended_builtin_patterns_first_witness :
    scorerWithCustom.assessFile (str "auth.ts") =
        { file := str "auth.ts", riskLevel := .HIGH
        , reasons := [str "Authentication logic"] } ∧
      scorerWithCustomMedium.assessFile (str "controller.ts") =
        { file := str "controller.ts", riskLevel := .MEDIUM
        , reasons := [str "API controller"] } ∧
      scorerWithCustomLow.assessFile (str "a.md") =
        { file := str "a.md", riskLevel := .LOW
        , reasons := [str "Markdown documentation"] } :=
  ⟨(C9_amended_builtin_patterns_first
      (some { customPatterns := some [customAuthPattern] }) (str "auth.ts")).1
      { pattern := .ends (str "auth.ts"), reason := str "Authentication logic" }
      (by decide),
    (C9_amended_builtin_patterns_first
      (some { customPatterns := some [customControllerPattern] }) (str "controller.ts")).2.1
      { pattern := .ends (str "controller.ts"), reason := str "API controller" }
      (by decide) (by decide),
    (C9_amended_builtin_patterns_first
      (some { customPatterns := some [customMarkdownPattern] }) (str "a.md")).2.2
      { pattern := .ends (str ".md"), reason := str "Markdown documentation" }
      (by decide) (by decide) (by decide)⟩

/-! ## GhostCommitDetector (core github utilities)

Keyword extraction from commit messages, per-commit diff extraction, and the
keyword/diff mismatch check.
-/

/-- Splits a string into its maximal runs of non-whitespace characters
(model of `split(/\s+/)`; the possible leading empty token JavaScript
produces is dropped later by the `length > 2` filter either way). -/
def splitNonWs : Str → Str → List Str
  | [], acc => if acc.isEmpty then [] else [acc.reverse]
  | c :: rest, acc =>
    if isJsWs c then
      if acc.isEmpty then splitNonWs rest []
      else acc.reverse :: splitNonWs rest []
    else splitNonWs rest (c :: acc)

/-- The `ignoreWords` set of `extractKeywords` (including the duplicated
`"could"` of the source). -/
def IGNORE_WORDS : List Str :=
  [ str "the", str "and", str "for", str "this", str "that", str "with", str "from"
  , str "have", str "been", str "were", str "they", str "their", str "what", str "when"
  , str "where", str "which", str "while", str "there", str "these", str "those"
  , str "then", str "just", str "only", str "also", str "into", str "some", str "could"
  , str "would", str "should", str "could", str "about", str "after", str "before"
  , str "between", str "through", str "during", str "under", str "again", str "refactor"
  , str "update", str "change", str "modify", str "remove", str "delete", str "add"
  , str "create", str "fix", str "bug", str "error", str "issue", str "problem"
  ]

/-- `GhostCommitDetector.extractKeywords`: lowercase, replace every
non-`[a-z0-9\s]` character by a space, split on whitespace, keep the words
longer than 2 characters that are not ignore words. -/
def extractKeywords (message : Str) : List Str :=
  let words := (splitNonWs ((jsToLower message).map (fun c =>
    if (('a' ≤ c && c ≤ 'z') || ('0' ≤ c && c ≤ '9') || isJsWs c) then c else ' ')) []).filter
    (fun word => 2 < word.length)
  words.filter (fun word => !(IGNORE_WORDS.contains word))

/-- One attempted match of `\b k \b` at the current position: the previous
character must not be a word character, `k` must start here, and the
character following it (if any) must not be a word character. Sound for the
keywords produced by `extractKeywords`, which consist of word characters
only (for them the source's regex escaping is the identity). -/
def boundaryMatchAt (keyword : Str) (prevIsWord : Bool) (s : Str) : Bool :=
  !prevIsWord && keyword.isPrefixOf s &&
    (match s.drop keyword.length with
     | [] => true
     | c :: _ => !isWordChar c)

/-- Scan of `\b k \b` over a string, tracking whether the previous character
was a word character. -/
def wordFoundGo (keyword : Str) : Bool → Str → Bool
  | prevIsWord, [] => boundaryMatchAt keyword prevIsWord []
  | prevIsWord, c :: rest =>
    boundaryMatchAt keyword prevIsWord (c :: rest) || wordFoundGo keyword (isWordChar c) rest

/-- `new RegExp("\\b" + escaped + "\\b", "i").test(diffLower)` for an
alphanumeric keyword against the (already lowercased) diff. -/
def keywordFoundInDiff (keyword diffLower : Str) : Bool :=
  wordFoundGo keyword false diffLower

/-- The `{ detected, reason? }` result of `checkMismatch`. -/
structure MismatchResult where
  detected : Bool
  reason : Option Str
deriving DecidableEq, Repr

/-- The `GhostCommitDetector` class state (threshold in `ℚ`; the compared
ratios are exact). -/
structure GhostCommitDetector where
  sensitivityThreshold : ℚ
deriving DecidableEq, Repr

/-- The `GhostCommitDetector` constructor
(`options?.sensitivityThreshold ?? 0.3`). -/
def GhostCommitDetector.ofOptions (sensitivityThreshold : Option ℚ) : GhostCommitDetector :=
  { sensitivityThreshold := sensitivityThreshold.getD 0.3 }

/-- `missing.slice(0, 8).join(", ")`. -/
def joinCommaSpace (l : List Str) : Str :=
  List.intercalate (str ", ") l

/-- `GhostCommitDetector.checkMismatch`. -/
def GhostCommitDetector.checkMismatch (det : GhostCommitDetector) (commitDiff : Str)
    (keywords : List Str) : MismatchResult :=
  if (jsTrim commitDiff).length = 0 then
    { detected := false, reason := some (str "No diff available for commit") }
  else if keywords.length = 0 then
    { detected := false, reason := none }
  else if (((keywords.filter (fun keyword =>
        keywordFoundInDiff keyword (jsToLower (jsTrim commitDiff)))).length : ℚ) /
      (keywords.length : ℚ)) < det.sensitivityThreshold then
    { detected := true
    , reason :=
        if 0 < (keywords.filter (fun keyword =>
            !keywordFoundInDiff keyword (jsToLower (jsTrim commitDiff)))).length then
          some (str "Keywords not found in diff: " ++ joinCommaSpace
            ((keywords.filter (fun keyword =>
              !keywordFoundInDiff keyword (jsToLower (jsTrim commitDiff)))).take 8))
        else none }
  else
    { detected := false, reason := none }

/-- First index at which `pat` starts inside the scanned string, counting
from `i`. -/
def strIndexOfAux (pat : Str) : Str → Nat → Option Nat
  | [], i => if pat.isPrefixOf [] then some i else none
  | c :: rest, i => if pat.isPrefixOf (c :: rest) then some i else strIndexOfAux pat rest (i + 1)

/-- JavaScript `String.prototype.indexOf` (as an `Option` instead of `-1`). -/
def strIndexOf (s pat : Str) : Option Nat :=
  strIndexOfAux pat s 0

/-- `indexOf(pat, start)`: search from offset `start`. -/
def strIndexOfFrom (s pat : Str) (start : Nat) : Option Nat :=
  (strIndexOf (s.drop start) pat).map (· + start)

/-- `GhostCommitDetector.extractCommitDiff`: the slice of the diff from
`From <sha>` up to the next `\nFrom `, the tail of the diff if there is no
next marker, and the whole diff if the marker is absent. -/
def extractCommitDiff (diff : Str) (sha : Str) : Str :=
  match strIndexOf diff (str "From " ++ sha) with
  | none => diff
  | some start =>
    match strIndexOfFrom diff (str "\nFrom ") (start + (str "From " ++ sha).length) with
    | none => diff.drop start
    | some next => (diff.take next).drop start

/-- A commit (`{ sha, message }`). -/
structure Commit where
  sha : Str
  message : Str
deriving DecidableEq, Repr

/-- `GhostCommitResult`. -/
structure GhostCommitResult where
  sha : Str
  message : Str
  detected : Bool
  reason : Option Str
deriving DecidableEq, Repr

/-- `GhostCommitDetector.detect`: per commit, extract its diff slice, extract
the message keywords, check the mismatch. -/
def GhostCommitDetector.detect (det : GhostCommitDetector) (diff : Str)
    (commits : List Commit) : List GhostCommitResult :=
  commits.map (fun commit =>
    { sha := commit.sha
    , message := commit.message
    , detected := (det.checkMismatch (extractCommitDiff diff commit.sha)
        (extractKeywords commit.message)).detected
    , reason := (det.checkMismatch (extractCommitDiff diff commit.sha)
        (extractKeywords commit.message)).reason
    })

/-! ### Mismatch detection threshold and reason (claim C6) -/

/-- C6: for a non-empty (post-trim) diff and a non-empty extracted keyword
list, `checkMismatch` detects a ghost commit if and only if the matched
keyword ratio is strictly below the sensitivity threshold, and the reason
then lists at most 8 of the missing keywords. -/
theorem C6_checkMismatch_threshold (det : GhostCommitDetector) (commitDiff : Str)
    (message : Str) (hdiff : (jsTrim commitDiff).length ≠ 0)
    (hkw : (extractKeywords message).length ≠ 0) :
    ((det.checkMismatch commitDiff (extractKeywords message)).detected = true ↔
      ((((extractKeywords message).filter (fun keyword =>
            keywordFoundInDiff keyword (jsToLower (jsTrim commitDiff)))).length : ℚ) /
          ((extractKeywords message).length : ℚ)) < det.sensitivityThreshold) ∧
    ((det.checkMismatch commitDiff (extractKeywords message)).detected = true →
      (det.checkMismatch commitDiff (extractKeywords message)).reason =
        (if 0 < ((extractKeywords message).filter (fun keyword =>
            !keywordFoundInDiff keyword (jsToLower (jsTrim commitDiff)))).length then
          some (str "Keywords not found in diff: " ++ joinCommaSpace
            (((extractKeywords message).filter (fun keyword =>
              !keywordFoundInDiff keyword (jsToLower (jsTrim commitDiff)))).take 8))
        else none) ∧
      (((extractKeywords message).filter (fun keyword =>
          !keywordFoundInDiff keyword (jsToLower (jsTrim commitDiff)))).take 8).length ≤ 8) := by
  unfold GhostCommitDetector.checkMismatch
  rw [if_neg hdiff, if_neg hkw]
  by_cases hratio : ((((extractKeywords message).filter (fun keyword =>
        keywordFoundInDiff keyword (jsToLower (jsTrim commitDiff)))).length : ℚ) /
      ((extractKeywords message).length : ℚ)) < det.sensitivityThreshold
  · rw [if_pos hratio]
    refine ⟨⟨fun _ => hratio, fun _ => rfl⟩, fun _ => ⟨rfl, ?_⟩⟩
    rw [List.length_take]
    omega
  · rw [if_neg hratio]
    exact ⟨⟨fun h => by simp at h, fun h => absurd h hratio⟩, fun h => by simp at h⟩

/-- The default-threshold detector used in concrete checks. -/
def ghostDet : GhostCommitDetector := GhostCommitDetector.ofOptions none

/-- Witness for C6 at a concrete diff and message. -/
theorem C6_checkMismatch_threshold_witness :
    (ghostDet.checkMismatch (str "+auth code") (extractKeywords (str "auth flow"))).detected =
        true ↔
      ((((extractKeywords (str "auth flow")).filter (fun keyword =>
            keywordFoundInDiff keyword (jsToLower (jsTrim (str "+auth code"))))).length : ℚ) /
          ((extractKeywords (str "auth flow")).length : ℚ)) < ghostDet.sensitivityThreshold :=
  (C6_checkMismatch_threshold ghostDet (str "+auth code") (str "auth flow")
    (by decide) (by decide)).1

/-! ### Missing per-commit diff (claim C7) -/

/-- C7: when the extracted per-commit diff is empty or whitespace-only,
`detect` reports the commit as not detected with reason
"No diff available for commit", whatever the message and the threshold. -/
theorem C7_detect_empty_diff (det : GhostCommitDetector) (diff : Str)
    (commits : List Commit) (commit : Commit) (hmem : commit ∈ commits)
    (hempty : (jsTrim (extractCommitDiff diff commit.sha)).length = 0) :
    ({ sha := commit.sha, message := commit.message, detected := false
     , reason := some (str "No diff available for commit") } : GhostCommitResult) ∈
      det.detect diff commits := by
  unfold GhostCommitDetector.detect
  refine List.mem_map.2 ⟨commit, hmem, ?_⟩
  simp [GhostCommitDetector.checkMismatch, hempty]

/-- Witness for C7: a commit whose marker is absent from an empty diff. -/
theorem C7_detect_empty_diff_witness :
    ({ sha := str "abc", message := str "overhaul authentication", detected := false
     , reason := some (str "No diff available for commit") } : GhostCommitResult) ∈
      ghostDet.detect (str "") [{ sha := str "abc", message := str "overhaul authentication" }] :=
  C7_detect_empty_diff ghostDet (str "")
    [{ sha := str "abc", message := str "overhaul authentication" }]
    { sha := str "abc", message := str "overhaul authentication" }
    (List.mem_cons_self _ _) (by decide)

/-! ## Ticket detection (packages/core/src/pr-title-enhancer.ts)

`detectTickets` with its two default patterns and URL generation. The two
default regexes are embedded as deterministic scanners (their quantified
classes exclude the characters that follow them, so the backtracking regex
engine behaves greedily and deterministically on them); a caller-supplied
custom pattern is an arbitrary JavaScript regex, so the custom branch is
parametrised by an abstract `customEngine` standing for
`Array.from(text.matchAll(new RegExp(pattern, "g"))).map(m => m[1] || m[0])`.
-/

/-- `[A-Z]`. -/
def isUpperAZ (c : Char) : Bool := 'A' ≤ c && c ≤ 'Z'

/-- `\d`. -/
def isDigit09 (c : Char) : Bool := '0' ≤ c && c ≤ '9'

/-- `[A-Z0-9]`. -/
def isUpperOrDigit (c : Char) : Bool := isUpperAZ c || isDigit09 c

/-- One attempt of `/\b([A-Z][A-Z0-9]+-\d+)\b/` at the current position
(`prevIsWord` records whether the preceding character was a word character):
returns the capture and the remaining input on success. -/
def tryJiraAt (prevIsWord : Bool) (s : Str) : Option (Str × Str) :=
  if prevIsWord then none
  else
    match s with
    | [] => none
    | c :: rest =>
      if isUpperAZ c then
        let run := rest.takeWhile isUpperOrDigit
        if run.length = 0 then none
        else
          match rest.drop run.length with
          | '-' :: rest2 =>
            let ds := rest2.takeWhile isDigit09
            if ds.length = 0 then none
            else
              match rest2.drop ds.length with
              | [] => some (c :: run ++ '-' :: ds, [])
              | d :: rest3 =>
                if isWordChar d then none else some (c :: run ++ '-' :: ds, d :: rest3)
          | _ => none
      else none

/-- The `matchAll` scan for the JIRA pattern (fuel-indexed; each step
consumes at least one character, so `length + 1` fuel always suffices). -/
def jiraScanGo : Nat → Bool → Str → List Str
  | 0, _, _ => []
  | fuel + 1, prevIsWord, s =>
    match tryJiraAt prevIsWord s with
    | some (m, rest) => m :: jiraScanGo fuel true rest
    | none =>
      match s with
      | [] => []
      | c :: rest => jiraScanGo fuel (isWordChar c) rest

/-- `text.matchAll(DEFAULT_PATTERNS.jira)`, as the list of captures. -/
def jiraMatchAll (text : Str) : List Str :=
  jiraScanGo (text.length + 1) false text

/-- One attempt of `/#(\d{1,6})/` at the current position: returns the digit
capture (greedy, at most 6 digits) and the remaining input. -/
def tryGithubAt (s : Str) : Option (Str × Str) :=
  match s with
  | [] => none
  | c :: rest =>
    if c = '#' then
      let ds := (rest.takeWhile isDigit09).take 6
      if ds.length = 0 then none
      else some (ds, rest.drop ds.length)
    else none

/-- The `matchAll` scan for the GitHub-issue pattern. -/
def githubScanGo : Nat → Str → List Str
  | 0, _ => []
  | fuel + 1, s =>
    match tryGithubAt s with
    | some (m, rest) => m :: githubScanGo fuel rest
    | none =>
      match s with
      | [] => []
      | _ :: rest => githubScanGo fuel rest

/-- `text.matchAll(DEFAULT_PATTERNS.github)`, as the list of digit captures. -/
def githubMatchAll (text : Str) : List Str :=
  githubScanGo (text.length + 1) text

/-- `TicketMatch.type` (`"jira" | "github" | "linear" | "custom"`). -/
inductive TicketType where
  | jira
  | github
  | linear
  | custom
deriving DecidableEq, Repr

/-- `TicketMatch`. -/
structure TicketMatch where
  ttype : TicketType
  id : Str
  url : Str
deriving DecidableEq, Repr

/-- `TicketDetectionOptions`. -/
structure TicketDetectionOptions where
  pattern : Option Str := none
  urlTemplate : Option Str := none
  githubBaseUrl : Option Str := none

/-- The literal placeholder of URL templates (regex `/\{\{id\}\}/g`). -/
def TEMPLATE_ID_PLACEHOLDER : Str := str "\x7b\x7bid\x7d\x7d"

/-- The default JIRA template `detectTickets` falls back to. -/
def DEFAULT_JIRA_URL_TEMPLATE : Str := str "https://jira.example.com/browse/\x7b\x7bid\x7d\x7d"

/-- Global replacement of a (non-empty) literal pattern, fuel-indexed; models
`String.prototype.replace` with a `g`-flagged literal regex. -/
def replaceAllGo (pat rep : Str) : Nat → Str → Str
  | 0, s => s
  | fuel + 1, s =>
    match s with
    | [] => []
    | c :: rest =>
      if pat.isPrefixOf (c :: rest) = true ∧ pat ≠ [] then
        rep ++ replaceAllGo pat rep fuel ((c :: rest).drop pat.length)
      else c :: replaceAllGo pat rep fuel rest

/-- `s.replace(new RegExp(pat-literal, "g"), rep)`. -/
def replaceAllStr (s pat rep : Str) : Str :=
  replaceAllGo pat rep (s.length + 1) s

/-- `generateTicketUrl`: `"#"` when the template is absent or falsy, else the
template with every `{{id}}` replaced. -/
def generateTicketUrl (id : Str) (template : Option Str) : Str :=
  match template with
  | none => str "#"
  | some t => if t.length = 0 then str "#" else replaceAllStr t TEMPLATE_ID_PLACEHOLDER id

/-- `generateGitHubIssueUrl`: base-URL override when truthy, else the bare
fallback. -/
def generateGitHubIssueUrl (issueNumber : Str) (baseUrl : Option Str) : Str :=
  match baseUrl with
  | some b =>
    if b.length = 0 then str "https://github.com/issues/" ++ issueNumber
    else b ++ str "/issues/" ++ issueNumber
  | none => str "https://github.com/issues/" ++ issueNumber

/-- JavaScript `a || b` on an optional string (falsy = absent or empty). -/
def jsOrStr (o : Option Str) (d : Str) : Str :=
  match o with
  | some t => if t.length = 0 then d else t
  | none => d

/-- The custom-pattern loop of `detectTickets`: dedup by id (skipping falsy
ids), type `custom`, URL from the caller's template via `generateTicketUrl`. -/
def buildCustomTickets (urlTemplate : Option Str) (seen : List Str) :
    List Str → List TicketMatch
  | [] => []
  | id :: rest =>
    if id ≠ [] ∧ id ∉ seen then
      { ttype := .custom, id := id, url := generateTicketUrl id urlTemplate } ::
        buildCustomTickets urlTemplate (id :: seen) rest
    else buildCustomTickets urlTemplate seen rest

/-- The JIRA loop of `detectTickets`: dedup by id, type `jira`, URL from
`options.urlTemplate || DEFAULT`; also returns the final seen set, which the
GitHub loop continues with. -/
def addJiraTickets (urlTemplate : Option Str) (seen : List Str) :
    List Str → (List TicketMatch × List Str)
  | [] => ([], seen)
  | id :: rest =>
    if id ≠ [] ∧ id ∉ seen then
      ({ ttype := .jira, id := id
       , url := generateTicketUrl id (some (jsOrStr urlTemplate DEFAULT_JIRA_URL_TEMPLATE)) } ::
          (addJiraTickets urlTemplate (id :: seen) rest).1,
        (addJiraTickets urlTemplate (id :: seen) rest).2)
    else addJiraTickets urlTemplate seen rest

/-- The GitHub-issue loop of `detectTickets`: the stored id is `"#" + digits`,
dedup continues over the same seen set, URL from `generateGitHubIssueUrl`. -/
def addGithubTickets (githubBaseUrl : Option Str) (seen : List Str) :
    List Str → List TicketMatch
  | [] => []
  | m :: rest =>
    if m ≠ [] ∧ ('#' :: m) ∉ seen then
      { ttype := .github, id := '#' :: m, url := generateGitHubIssueUrl m githubBaseUrl } ::
        addGithubTickets githubBaseUrl (('#' :: m) :: seen) rest
    else addGithubTickets githubBaseUrl seen rest

/-- The default branch of `detectTickets` (JIRA then GitHub, shared dedup). -/
def detectTicketsDefault (text : Str) (options : TicketDetectionOptions) : List TicketMatch :=
  (addJiraTickets options.urlTemplate [] (jiraMatchAll text)).1 ++
    addGithubTickets options.githubBaseUrl
      (addJiraTickets options.urlTemplate [] (jiraMatchAll text)).2
      (githubMatchAll text)

/-- `detectTickets`: a truthy custom pattern with non-empty trim replaces the
default patterns entirely; `customEngine` abstracts the custom regex. -/
def detectTickets (customEngine : Str → Str → List Str) (text : Str)
    (options : TicketDetectionOptions) : List TicketMatch :=
  match options.pattern with
  | some p =>
    if p ≠ [] ∧ 0 < (jsTrim p).length then
      buildCustomTickets options.urlTemplate [] (customEngine (jsTrim p) text)
    else detectTicketsDefault text options
  | none => detectTicketsDefault text options

/-! ### Ticket URL fallbacks (claim C8) and inert custom patterns (claim C10) -/

/-- Every ticket built by the custom loop is custom-typed. -/
theorem buildCustomTickets_ttype (u : Option Str) :
    ∀ (ids seen : List Str) (t : TicketMatch),
      t ∈ buildCustomTickets u seen ids → t.ttype = TicketType.custom := by
  intro ids
  induction ids with
  | nil => intro seen t h; simp [buildCustomTickets] at h
  | cons id rest ih =>
    intro seen t h
    unfold buildCustomTickets at h
    split_ifs at h with hcond
    · rcases List.mem_cons.1 h with h | h
      · rw [h]
      · exact ih _ t h
    · exact ih _ t h

/-- Every ticket built by the JIRA loop is jira-typed and carries the URL
generated from `urlTemplate || DEFAULT`. -/
theorem addJiraTickets_mem (u : Option Str) :
    ∀ (ids seen : List Str) (t : TicketMatch),
      t ∈ (addJiraTickets u seen ids).1 →
      t.ttype = TicketType.jira ∧
        t.url = generateTicketUrl t.id (some (jsOrStr u DEFAULT_JIRA_URL_TEMPLATE)) := by
  intro ids
  induction ids with
  | nil => intro seen t h; simp [addJiraTickets] at h
  | cons id rest ih =>
    intro seen t h
    unfold addJiraTickets at h
    split_ifs at h with hcond
    · rcases List.mem_cons.1 h with h | h
      · rw [h]
        exact ⟨rfl, rfl⟩
      · exact ih _ t h
    · exact ih _ t h

/-- Every ticket built by the GitHub loop is github-typed, has a `#`-prefixed
id, and carries the URL generated from the base-URL option. -/
theorem addGithubTickets_mem (b : Option Str) :
    ∀ (ids seen : List Str) (t : TicketMatch),
      t ∈ addGithubTickets b seen ids →
      t.ttype = TicketType.github ∧
        t.url = generateGitHubIssueUrl (t.id.drop 1) b := by
  intro ids
  induction ids with
  | nil => intro seen t h; simp [addGithubTickets] at h
  | cons m rest ih =>
    intro seen t h
    unfold addGithubTickets at h
    split_ifs at h with hcond
    · rcases List.mem_cons.1 h with h | h
      · rw [h]
        exact ⟨rfl, rfl⟩
      · exact ih _ t h
    · exact ih _ t h

/-- Replacement of a literal that does not start at the head keeps the head
character. -/
theorem replaceAllGo_head (pat rep : Str) (fuel : Nat) (c : Char) (rest : Str)
    (h : pat.isPrefixOf (c :: rest) = false) :
    (replaceAllGo pat rep fuel (c :: rest)).head? = some c := by
  cases fuel with
  | zero => rfl
  | succ n =>
    unfold replaceAllGo
    dsimp only
    rw [if_neg (by simp [h])]
    rfl

/-- Counterexample to C8: with no URL template configured, the JIRA ticket
for `PROJ-123` gets the default-template URL, not `"#"`. -/
theorem C8_counterexample :
    detectTickets (fun _ _ => []) (str "PROJ-123") { } =
      [{ ttype := .jira, id := str "PROJ-123"
       , url := str "https://jira.example.com/browse/PROJ-123" }] ∧
      (str "https://jira.example.com/browse/PROJ-123") ≠ str "#" := by
  constructor
  · decide
  · decide

/-- C8 (amended): with no URL template configured, each JIRA-type ticket
returned by `detectTickets` has the DEFAULT template
`https://jira.example.com/browse/{{id}}` instantiated at its id (never `"#"`),
while GitHub-issue tickets use the base-URL override or the bare fallback. -/
theorem C8_amended_default_jira_template (customEngine : Str → Str → List Str)
    (text : Str) (options : TicketDetectionOptions)
    (htempl : options.urlTemplate = none) :
    ∀ t ∈ detectTickets customEngine text options,
      (t.ttype = TicketType.jira →
        t.url = replaceAllStr DEFAULT_JIRA_URL_TEMPLATE TEMPLATE_ID_PLACEHOLDER t.id ∧
          t.url ≠ str "#") ∧
      (t.ttype = TicketType.github →
        t.url = generateGitHubIssueUrl (t.id.drop 1) options.githubBaseUrl) := by
  intro t ht
  have hmain : t ∈ detectTicketsDefault text options ∨ t.ttype = TicketType.custom := by
    unfold detectTickets at ht
    cases hp : options.pattern with
    | none => rw [hp] at ht; exact Or.inl ht
    | some p =>
      rw [hp] at ht
      dsimp only at ht
      by_cases hc : p ≠ [] ∧ 0 < (jsTrim p).length
      · rw [if_pos hc] at ht
        exact Or.inr (buildCustomTickets_ttype _ _ _ t ht)
      · rw [if_neg hc] at ht
        exact Or.inl ht
  rcases hmain with hmem | hcust
  · unfold detectTicketsDefault at hmem
    rcases List.mem_append.1 hmem with hj | hg
    · obtain ⟨hty, hurl⟩ := addJiraTickets_mem options.urlTemplate _ _ t hj
      rw [htempl] at hurl
      have hurl2 : t.url = replaceAllStr DEFAULT_JIRA_URL_TEMPLATE TEMPLATE_ID_PLACEHOLDER t.id := by
        rw [hurl]
        show generateTicketUrl t.id (some (jsOrStr none DEFAULT_JIRA_URL_TEMPLATE)) = _
        unfold jsOrStr generateTicketUrl
        dsimp only
        rw [if_neg (by decide)]
      refine ⟨fun _ => ⟨hurl2, ?_⟩, fun hgt => by rw [hty] at hgt; simp at hgt⟩
      intro heq
      have hhead : (replaceAllStr DEFAULT_JIRA_URL_TEMPLATE TEMPLATE_ID_PLACEHOLDER
          t.id).head? = some 'h' := by
        unfold replaceAllStr
        rw [show DEFAULT_JIRA_URL_TEMPLATE = 'h' :: DEFAULT_JIRA_URL_TEMPLATE.drop 1 from
          by decide]
        exact replaceAllGo_head _ _ _ _ _ (by decide)
      rw [hurl2] at heq
      rw [heq] at hhead
      exact absurd hhead (by decide)
    · obtain ⟨hty, hurl⟩ := addGithubTickets_mem options.githubBaseUrl _ _ t hg
      exact ⟨fun hjt => by rw [hty] at hjt; simp at hjt, fun _ => hurl⟩
  · exact ⟨fun hjt => by rw [hcust] at hjt; simp at hjt,
      fun hgt => by rw [hcust] at hgt; simp at hgt⟩

/-- Witness for C8 (amended) at the concrete text `PROJ-123`. -/
theorem C8_amended_default_jira_template_witness :
    ({ ttype := .jira, id := str "PROJ-123"
     , url := str "https://jira.example.com/browse/PROJ-123" } : TicketMatch).url =
        replaceAllStr DEFAULT_JIRA_URL_TEMPLATE TEMPLATE_ID_PLACEHOLDER (str "PROJ-123") ∧
      ({ ttype := .jira, id := str "PROJ-123"
       , url := str "https://jira.example.com/browse/PROJ-123" } : TicketMatch).url ≠
        str "#" :=
  (C8_amended_default_jira_template (fun _ _ => []) (str "PROJ-123") { } rfl
    { ttype := .jira, id := str "PROJ-123"
    , url := str "https://jira.example.com/browse/PROJ-123" } (by decide)).1 rfl

/-- C10: a custom pattern that is empty or whitespace-only is silently
ignored: `detectTickets` returns exactly the default JIRA + GitHub result and
produces no custom-type ticket. -/
theorem C10_inert_custom_pattern (customEngine : Str → Str → List Str) (text : Str)
    (options : TicketDetectionOptions)
    (hinert : ∀ p, options.pattern = some p → (jsTrim p).length = 0) :
    detectTickets customEngine text options =
        detectTickets customEngine text { options with pattern := none } ∧
      ∀ t ∈ detectTickets customEngine text options, t.ttype ≠ TicketType.custom := by
  have heq : detectTickets customEngine text options = detectTicketsDefault text options := by
    unfold detectTickets
    cases hp : options.pattern with
    | none => rfl
    | some p =>
      dsimp only
      rw [if_neg]
      intro hc
      obtain ⟨hc1, hc2⟩ := hc
      have h0 := hinert p hp
      omega
  constructor
  · rw [heq]
    rfl
  · intro t ht
    rw [heq] at ht
    unfold detectTicketsDefault at ht
    rcases List.mem_append.1 ht with hj | hg
    · rw [(addJiraTickets_mem options.urlTemplate _ _ t hj).1]
      simp
    · rw [(addGithubTickets_mem options.githubBaseUrl _ _ t hg).1]
      simp

/-- Witness for C10 with a whitespace-only custom pattern. -/
theorem C10_inert_custom_pattern_witness :
    detectTickets (fun _ _ => [str "XX"]) (str "#7") { pattern := some (str " ") } =
      detectTickets (fun _ _ => [str "XX"]) (str "#7") { pattern := none } :=
  (C10_inert_custom_pattern (fun _ _ => [str "XX"]) (str "#7")
    { pattern := some (str " ") }
    (fun p hp => by cases hp; decide)).1
